import Mathlib

/-!
# Verification of the `docassemble.quadralocate` report-formatting core

This file gives a shallow embedding, in Lean 4, of the formatting core in
`src/docassemble/quadralocate/objects.py` and proves/refutes the frozen
claims about it.

Modelling conventions:

* Python strings are Lean `String`s; the Python string methods used by the
  source (`strip`, `lower`, `upper`, substring test, `rstrip`, slicing) are
  reimplemented below on `List Char` with their ASCII semantics, which is
  all the source exercises.
* Python numbers (technician hours) are modelled as exact fractions
  (`PyNum`, an integer numerator over a positive integer denominator, not
  normalised); `round` is Python 3 `round`, i.e. round-half-to-even
  (`pyRound`).
* `\r` separators are kept literally.
* Fixed-key `DADict`s (`hours`) become functions from a finite key type;
  open dictionaries (`methods`, `reasons`, `missing_docs`) become
  `String → Bool` lookups with Python's `.get(k, False)` default.
* Optional attributes accessed with `getattr(x, 'f', d)` become `Option`
  fields read with `Option.getD`.
-/

/-- Python `str` character of a decimal digit (`'0'`–`'9'`). -/
def digitChar (d : Nat) : Char :=
  match d with
  | 0 => '0' | 1 => '1' | 2 => '2' | 3 => '3' | 4 => '4'
  | 5 => '5' | 6 => '6' | 7 => '7' | 8 => '8' | 9 => '9'
  | _ => '*'

/-- Decimal digits of a natural number, most significant first.
Fuel-based so that it reduces in the kernel; `natToStr` always supplies
enough fuel. -/
def natDigitsAux : Nat → Nat → List Char
  | 0, _ => []
  | fuel + 1, n =>
    if n < 10 then [digitChar n]
    else natDigitsAux fuel (n / 10) ++ [digitChar (n % 10)]

/-- Python `str(n)` for a natural number. -/
def natToStr (n : Nat) : String :=
  String.mk (natDigitsAux (n + 1) n)

/-- Python `str(k)` for an integer. -/
def intRepr (k : Int) : String :=
  if k < 0 then "-" ++ natToStr k.natAbs else natToStr k.natAbs

/-- Python `f"{m:02d}"` for a natural number. -/
def pad2Nat (m : Nat) : String :=
  if m < 10 then "0" ++ natToStr m else natToStr m

/-- Python `f"{m:02d}"` for an integer. -/
def pyPad2 (m : Int) : String :=
  if m < 0 then "-" ++ natToStr m.natAbs else pad2Nat m.toNat

/-- ASCII lower-casing of one character, as Python `str.lower` acts on the
ASCII range (the only range the source exercises). -/
def lowerChar (c : Char) : Char :=
  if 65 ≤ c.toNat ∧ c.toNat ≤ 90 then Char.ofNat (c.toNat + 32) else c

/-- ASCII upper-casing of one character (Python `str.upper` on ASCII). -/
def upperChar (c : Char) : Char :=
  if 97 ≤ c.toNat ∧ c.toNat ≤ 122 then Char.ofNat (c.toNat - 32) else c

/-- Python `str.lower` (ASCII fragment). -/
def pyLower (s : String) : String :=
  String.mk (s.toList.map lowerChar)

/-- Python `str.upper` (ASCII fragment). -/
def pyUpper (s : String) : String :=
  String.mk (s.toList.map upperChar)

/-- The characters Python `str.strip()` removes by default. -/
def isPySpace (c : Char) : Bool :=
  c == ' ' || c == '\t' || c == '\n' || c == '\r' || c == '\x0b' || c == '\x0c'

/-- Python `str.strip()`: drop whitespace at both ends. -/
def pyStrip (s : String) : String :=
  String.mk (((s.toList.dropWhile isPySpace).reverse.dropWhile isPySpace).reverse)

/-- Python `str.strip(chars)`: drop characters of `cs` at both ends. -/
def pyStripChars (cs : List Char) (s : String) : String :=
  String.mk (((s.toList.dropWhile (fun c => cs.contains c)).reverse.dropWhile
    (fun c => cs.contains c)).reverse)

/-- Does `n` occur at the start of `h`? (helper for the substring test). -/
def leadMatch : List Char → List Char → Bool
  | [], _ => true
  | _ :: _, [] => false
  | a :: as, b :: bs => a == b && leadMatch as bs

/-- Does `n` occur (contiguously) anywhere in `h`? -/
def subMatch (n : List Char) : List Char → Bool
  | [] => n.isEmpty
  | b :: bs => leadMatch n (b :: bs) || subMatch n bs

/-- Python's `needle in haystack` substring test. -/
def hasSub (n h : String) : Bool :=
  subMatch n.toList h.toList

/-- Python `s.rstrip(c)` for a single-character strip set. -/
def rstripChar (c : Char) (s : String) : String :=
  String.mk ((s.toList.reverse.dropWhile (fun x => x == c)).reverse)

/-- Python `chars.isdigit()` for one ASCII character. -/
def isDigitB (c : Char) : Bool :=
  48 ≤ c.toNat && c.toNat ≤ 57

/-- A Python number, modelled as an exact (not necessarily normalised)
fraction.  Every value the embedding builds has a positive denominator;
theorems that quantify over `PyNum` carry `0 < den` as a hypothesis. -/
structure PyNum where
  num : Int
  den : Int
  deriving DecidableEq

/-- The number zero. -/
def pyZero : PyNum := ⟨0, 1⟩

/-- Embed an integer. -/
def PyNum.ofInt (n : Int) : PyNum := ⟨n, 1⟩

/-- Exact addition of fractions (used for Python `+` on hour values). -/
def pyAdd (a b : PyNum) : PyNum :=
  ⟨a.num * b.den + b.num * a.den, a.den * b.den⟩

/-- Multiplication by an integer constant (the source only multiplies by
`100`). -/
def pyMulInt (a : PyNum) (k : Int) : PyNum :=
  ⟨a.num * k, a.den⟩

/-- Python `v == 0` for a fraction with positive denominator. -/
def PyNum.isZero (a : PyNum) : Bool := a.num == 0

/-- Python `v > 0` for a fraction with positive denominator. -/
def pyPos (a : PyNum) : Bool := 0 < a.num

/-- Floor of a fraction with positive denominator. -/
def pyFloor (a : PyNum) : Int :=
  Int.fdiv a.num a.den

/-- Python 3 `round(q)` (round half to even), for positive denominator:
the fractional part `r = q - ⌊q⌋` is compared with `1/2` via the
cross-multiplied quantity `2 * (num - ⌊q⌋ * den)` versus `den`. -/
def pyRound (a : PyNum) : Int :=
  let f := pyFloor a
  let r2 := 2 * (a.num - f * a.den)
  if r2 < a.den then f
  else if a.den < r2 then f + 1
  else if f % 2 = 0 then f else f + 1

/-- Rendering of `round(n*100)/100` by `f"{x:.2f}"`: sign, integer part,
point, two fraction digits (`k` is the already-rounded value in
hundredths), then the source's `rstrip('0').rstrip('.')`. -/
def fnRender (k : ℤ) : String :=
  let a := k.natAbs
  let s := (if k < 0 then "-" else "") ++ natToStr (a / 100) ++ "." ++ pad2Nat (a % 100)
  rstripChar '.' (rstripChar '0' s)

/-- Source `format_number` (objects.py:566): `"0"` for zero, otherwise
render `round(n * 100) / 100` with `:.2f` and strip trailing zeros and a
trailing point. -/
def format_number (n : PyNum) : String :=
  if n.isZero then "0"
  else fnRender (pyRound (pyMulInt n 100))

/-- Tail of a 3+-element Oxford join: all but the last get `", "`, the last
is preceded by `"and "`; matches `", ".join(items[:-1]) + ", and " + items[-1]`. -/
def oxford_join_aux : List String → String
  | [] => ""
  | [a] => "and " ++ a
  | a :: rest => a ++ ", " ++ oxford_join_aux rest

/-- Source `oxford_join` (objects.py:623). -/
def oxford_join : List String → String
  | [] => ""
  | [a] => a
  | [a, b] => a ++ " and " ++ b
  | a :: rest => a ++ ", " ++ oxford_join_aux rest

/-- The six fixed hour-type keys of `Technician.HOUR_TYPES`
(objects.py:110). -/
inductive HourType where
  | em | gpr | travel | survey | concrete_gpr | standby
  deriving DecidableEq

/-- `Technician.HOUR_TYPES`, in its fixed order (objects.py:110). -/
def HOUR_TYPES : List HourType :=
  [.em, .gpr, .travel, .survey, .concrete_gpr, .standby]

/-- `Technician.HOUR_LABELS` (objects.py:111). -/
def hourLabel : HourType → String
  | .em => "EM"
  | .gpr => "GPR"
  | .travel => "Travel"
  | .survey => "Survey"
  | .concrete_gpr => "Conc. GPR"
  | .standby => "Standby"

/-- An hours dictionary: after `Technician.init` all six keys are present
(objects.py:120), so it is a total map from the key type. -/
def HourMap : Type := HourType → PyNum

/-- The all-zero hours map every technician starts from. -/
def zeroHours : HourMap := fun _ => pyZero

/-- Source `format_totals_line` (objects.py:634): `"Label = n"` for every
hour type with a positive total, joined by `"; "`. -/
def format_totals_line (totals : HourMap) : String :=
  String.intercalate "; "
    ((HOUR_TYPES.filter (fun ht => pyPos (totals ht))).map
      (fun ht => hourLabel ht ++ " = " ++ format_number (totals ht)))

/-- Source class `Technician` (objects.py:107): a name (absent reads as
`"Unknown"`) and the six hour values. -/
structure Technician where
  name : Option String
  hours : HourMap

/-- `getattr(self, 'name', 'Unknown')` (objects.py:155, 204). -/
def Technician.getName (t : Technician) : String :=
  t.name.getD "Unknown"

/-- Source `Technician.has_any_hours` (objects.py:127): true iff some hour
value is `> 0`, scanning `HOUR_TYPES` in order. -/
def Technician.has_any_hours (t : Technician) : Bool :=
  HOUR_TYPES.any (fun ht => pyPos (t.hours ht))

/-- Source `Technician.get_total_hours` (objects.py:134). -/
def Technician.get_total_hours (t : Technician) : PyNum :=
  HOUR_TYPES.foldl (fun acc ht => pyAdd acc (t.hours ht)) pyZero

/-- Source `Technician.format_hours_line` (objects.py:141): for each hour
type in order, if the value is truthy and `> 0`, emit
`"Label = formatted"`; join with `"; "`.  (For a number, Python's
`value and float(value) > 0` is equivalent to `value > 0`.) -/
def Technician.format_hours_line (t : Technician) : String :=
  String.intercalate "; "
    ((HOUR_TYPES.filter (fun ht => pyPos (t.hours ht))).map
      (fun ht => hourLabel ht ++ " = " ++ format_number (t.hours ht)))

/-- Source `Technician.format_tech_line` (objects.py:153). -/
def Technician.format_tech_line (t : Technician) : String :=
  let hours_str := t.format_hours_line
  if hours_str ≠ "" then t.getName ++ ": " ++ hours_str else t.getName

/-- A time value as stored on a work day: either a free-form string or a
structured `datetime.time` (hour, minute). -/
inductive TimeVal where
  | s (v : String)
  | t (hour minute : Nat)

/-- The natural number denoted by a list of decimal digit characters. -/
def natOfDigits (l : List Char) : Nat :=
  l.foldl (fun a c => a * 10 + (c.toNat - 48)) 0

/-- The digit block of Python `int(s)`: at least one digit and nothing
else, giving its value.  `none` models `ValueError`. -/
def digitsOpt (l : List Char) : Option Nat :=
  if l ≠ [] ∧ l.all isDigitB then some (natOfDigits l) else none

/-- Python `int(s)` on a string: optional surrounding whitespace, an
optional sign, then at least one digit; `none` models `ValueError`. -/
def pyInt (s : String) : Option Int :=
  let l := (pyStrip s).toList
  if l.head? = some '-' then (digitsOpt l.tail).map (fun n => -(n : Int))
  else if l.head? = some '+' then (digitsOpt l.tail).map (fun n => (n : Int))
  else (digitsOpt l).map (fun n => (n : Int))

/-- The digit rule of `format_time_12hr` (objects.py:589): drop colons,
strip, then `int` the whole string as the hour when at most 2 characters
remain, else `int` all but the last two as the hour and the last two as
the minutes.  `none` models the `ValueError` caught by the source's
`except`. -/
def parseDigitRule (t : String) : Option (Int × Int) :=
  let parts := pyStrip (String.mk (t.toList.filter (fun c => c != ':')))
  if parts.length ≤ 2 then
    match pyInt parts with
    | some h => some (h, 0)
    | none => none
  else
    match pyInt (String.mk (parts.toList.take (parts.length - 2))),
          pyInt (String.mk (parts.toList.drop (parts.length - 2))) with
    | some h, some m => some (h, m)
    | _, _ => none

/-- The hour/minute rendering of the string branch of `format_time_12hr`
(objects.py:597): hours `0` and `24` map to `12 am`, `< 12` to `am`,
`12` to `12 pm`, and `> 12` to `hour - 12` `pm`. -/
def renderHM (h m : Int) : String :=
  if h = 0 ∨ h = 24 then "12:" ++ pyPad2 m ++ " am"
  else if h < 12 then intRepr h ++ ":" ++ pyPad2 m ++ " am"
  else if h = 12 then "12:" ++ pyPad2 m ++ " pm"
  else intRepr (h - 12) ++ ":" ++ pyPad2 m ++ " pm"

/-- The `datetime.time` rendering of `format_time_12hr` (objects.py:608);
same branches except there is no `hour == 24` case. -/
def renderTimeObj (hh mm : Nat) : String :=
  if hh = 0 then "12:" ++ pad2Nat mm ++ " am"
  else if hh < 12 then natToStr hh ++ ":" ++ pad2Nat mm ++ " am"
  else if hh = 12 then "12:" ++ pad2Nat mm ++ " pm"
  else natToStr (hh - 12) ++ ":" ++ pad2Nat mm ++ " pm"

/-- Source `format_time_12hr` (objects.py:575).  A falsy input (absent or
the empty string) yields `""`.  A string is stripped and lower-cased; if
it contains `am`/`pm` it is returned as is; otherwise the digit rule is
tried and, on failure (the source's catch-all `except`), the
stripped/lower-cased string is returned.  A structured time is rendered
directly. -/
def format_time_12hr : Option TimeVal → String
  | none => ""
  | some (TimeVal.s v) =>
    if v = "" then ""
    else
      let tv := pyLower (pyStrip v)
      if hasSub "am" tv || hasSub "pm" tv then tv
      else
        match parseDigitRule tv with
        | some (h, m) => renderHM h m
        | none => tv
  | some (TimeVal.t hh mm) => renderTimeObj hh mm

/-- Modelled from the spec: `format_date` comes from the external
`docassemble.base.util` layer, which is not part of this repository; the
spec only requires that it render the stored date as a short date string,
so dates are modelled as already-rendered short strings and `format_date`
is the identity on them. -/
def format_date (d : String) : String := d

/-- Source class `WorkDay` (objects.py:162): optional start/end times, an
optional date, and an ordered list of technicians. -/
structure WorkDay where
  date : Option String
  start_time : Option TimeVal
  end_time : Option TimeVal
  technicians : List Technician

/-- Source `WorkDay.format_time_range` (objects.py:169). -/
def WorkDay.format_time_range (d : WorkDay) : String :=
  let start := format_time_12hr d.start_time
  let «end» := format_time_12hr d.end_time
  if start ≠ "" ∧ «end» ≠ "" then start ++ " to " ++ «end»
  else if start ≠ "" then "from " ++ start
  else if «end» ≠ "" then "to " ++ «end»
  else ""

/-- Source `WorkDay.get_all_hours_by_type` (objects.py:182): per-type sums
over all technicians of the day (`float(x or 0)` is the identity on our
numeric hour values). -/
def WorkDay.get_all_hours_by_type (d : WorkDay) : HourMap :=
  d.technicians.foldl (fun totals t => fun ht => pyAdd (totals ht) (t.hours ht)) zeroHours

/-- Source class `MultiDayJob` (objects.py:191). -/
structure MultiDayJob where
  is_multi_day : Bool
  work_days : List WorkDay

/-- One `tech_dict` update of `MultiDayJob.get_all_technicians`
(objects.py:203): find the entry with this name (inserting a zero entry at
the end if absent, as Python dict insertion does) and add this
technician's hours into it. -/
def addTechHours : List (String × HourMap) → String → HourMap → List (String × HourMap)
  | [], name, h => [(name, fun ht => pyAdd (zeroHours ht) (h ht))]
  | (n, m) :: rest, name, h =>
    if n = name then (n, fun ht => pyAdd (m ht) (h ht)) :: rest
    else (n, m) :: addTechHours rest name h

/-- Source `MultiDayJob.get_all_technicians` (objects.py:199): an
insertion-ordered map from technician name to the per-type sums of that
name's hours across all days. -/
def MultiDayJob.get_all_technicians (j : MultiDayJob) : List (String × HourMap) :=
  j.work_days.foldl
    (fun acc d => d.technicians.foldl (fun a t => addTechHours a t.getName t.hours) acc)
    []

/-- Source `MultiDayJob.get_combined_totals` (objects.py:211). -/
def MultiDayJob.get_combined_totals (j : MultiDayJob) : HourMap :=
  j.work_days.foldl
    (fun totals d => fun ht => pyAdd (totals ht) (d.get_all_hours_by_type ht))
    zeroHours

/-- The `Day ({date_str})` prefix used on the multi-day paths
(objects.py:232, 257): a short-formatted date, or `Unknown` when the day
has no date attribute. -/
def dayDateStr (d : WorkDay) : String :=
  match d.date with
  | some dt => format_date dt
  | none => "Unknown"

/-- Source `MultiDayJob.format_time_on_site` (objects.py:220): the
single-day path (not multi-day, or at most one day) formats the first
day's time range; the multi-day path emits one `Day (date): range` line
per day. -/
def MultiDayJob.format_time_on_site (j : MultiDayJob) : String :=
  if j.is_multi_day = false ∨ j.work_days.length ≤ 1 then
    match j.work_days with
    | [] => ""
    | d :: _ => d.format_time_range
  else
    String.intercalate "\r"
      (j.work_days.map (fun d => "Day (" ++ dayDateStr d ++ "): " ++ d.format_time_range))

/-- Source `MultiDayJob.format_type_time` (objects.py:237), with the
Python `lines.append` loops rendered as left folds over an accumulated
line list. -/
def MultiDayJob.format_type_time (j : MultiDayJob) : String :=
  if j.is_multi_day = false ∨ j.work_days.length ≤ 1 then
    match j.work_days with
    | [] => String.intercalate "\r" []
    | d :: _ =>
      let lines := d.technicians.foldl
        (fun a t => if t.has_any_hours then a ++ [t.format_tech_line] else a) []
      let lines :=
        if 2 ≤ (d.technicians.filter (fun t => t.has_any_hours)).length then
          let totals_line := format_totals_line d.get_all_hours_by_type
          if totals_line ≠ "" then lines ++ ["Total: " ++ totals_line] else lines
        else lines
      String.intercalate "\r" lines
  else
    let lines := j.work_days.foldl
      (fun a d =>
        let tech_parts := d.technicians.foldl
          (fun p t => if t.has_any_hours then p ++ [t.format_tech_line] else p) []
        if tech_parts ≠ [] then
          a ++ ["Day (" ++ dayDateStr d ++ "): " ++ String.intercalate " | " tech_parts]
        else a)
      []
    let all_techs := j.get_all_technicians
    let lines :=
      if all_techs.isEmpty = false then
        let lines := lines ++ ["", "TOTALS:"]
        let lines := all_techs.foldl
          (fun a nt =>
            let tech_total := format_totals_line nt.2
            if tech_total ≠ "" then a ++ ["  " ++ nt.1 ++ ": " ++ tech_total] else a)
          lines
        let combined_line := format_totals_line j.get_combined_totals
        if combined_line ≠ "" then lines ++ ["  Combined: " ++ combined_line] else lines
      else lines
    String.intercalate "\r" lines

/-- Source `UtilityType.get_method_labels` label map (objects.py:44);
`method_label_map.get(method, method)` falls back to the raw method id. -/
def methodLabel (m : String) : String :=
  if m = "em" then "Located with EM"
  else if m = "gpr" then "Located with GPR"
  else if m = "visual" then "Located visually"
  else if m = "not_located" then "Not located"
  else if m = "not_in_area" then "Not in proposed work area"
  else m

/-- Source class `UtilityType` (objects.py:20): a category with its legal
method ids, the selected methods (`methods.get(m, False)` lookups), and an
optional free-text summary. -/
structure UtilityType where
  key : String
  display_name : String
  available_methods : List String
  methods : String → Bool
  summary : Option String

/-- Source `UtilityType.has_any_method` (objects.py:30). -/
def UtilityType.has_any_method (u : UtilityType) : Bool :=
  u.available_methods.any u.methods

/-- Source `UtilityType.should_display` (objects.py:37): any method, or a
present truthy summary. -/
def UtilityType.should_display (u : UtilityType) : Bool :=
  u.has_any_method || u.summary.getD "" != ""

/-- Source `UtilityType.get_method_labels` (objects.py:41). -/
def UtilityType.get_method_labels (u : UtilityType) : List String :=
  (u.available_methods.filter u.methods).map methodLabel

/-- Source `UtilityType.format_header` (objects.py:56). -/
def UtilityType.format_header (u : UtilityType) : String :=
  let labels := u.get_method_labels
  if labels ≠ [] then
    pyUpper u.display_name ++ " (" ++ String.intercalate ", " labels ++ ")"
  else pyUpper u.display_name

/-- Source `UtilityType.format_section` (objects.py:64). -/
def UtilityType.format_section (u : UtilityType) : String :=
  if u.should_display = false then ""
  else
    let summary := u.summary.getD ""
    if summary ≠ "" then u.format_header ++ ":\r" ++ summary
    else u.format_header ++ ":"

/-- Source class `UtilityMatrix` (objects.py:73): one `UtilityType` per
fixed category. -/
structure UtilityMatrix where
  electrical : UtilityType
  communications : UtilityType
  gas : UtilityType
  water : UtilityType
  storm : UtilityType
  sanitary : UtilityType
  ditch : UtilityType
  unknown : UtilityType

/-- The fixed category order of `UtilityMatrix.UTILITY_TYPES`
(objects.py:76). -/
def UtilityMatrix.ordered (m : UtilityMatrix) : List UtilityType :=
  [m.electrical, m.communications, m.gas, m.water, m.storm, m.sanitary, m.ditch, m.unknown]

/-- Source `UtilityMatrix.get_active_utilities` (objects.py:97). -/
def UtilityMatrix.get_active_utilities (m : UtilityMatrix) : List UtilityType :=
  m.ordered.filter (fun u => u.should_display)

/-- A just-initialised `UtilityType` (objects.py:87): no methods selected
and no summary attribute. -/
def initUtility (key display_name : String) (avail : List String) : UtilityType :=
  ⟨key, display_name, avail, fun _ => false, none⟩

/-- The matrix built by `UtilityMatrix.init` (objects.py:87), before the
caller sets anything. -/
def initUtilityMatrix : UtilityMatrix :=
  ⟨initUtility "electrical" "Electrical" ["em", "gpr", "visual", "not_located", "not_in_area"],
   initUtility "communications" "Communications" ["em", "gpr", "visual", "not_located", "not_in_area"],
   initUtility "gas" "Gas / Pipeline" ["em", "gpr", "visual", "not_located", "not_in_area"],
   initUtility "water" "Water" ["em", "gpr", "visual", "not_located", "not_in_area"],
   initUtility "storm" "Storm" ["em", "gpr", "visual", "not_located", "not_in_area"],
   initUtility "sanitary" "Sanitary" ["em", "gpr", "visual", "not_located", "not_in_area"],
   initUtility "ditch" "Ditch" ["visual", "not_located"],
   initUtility "unknown" "Unknown / Other" ["em", "gpr", "visual", "not_located", "not_in_area"]⟩

/-- Source `HydrovacRecommendation.STANDARD_REASONS` (objects.py:286). -/
def STANDARD_REASONS : List (String × String) :=
  [("obstructions", "Obstructions in scan area"),
   ("unlocated", "Unlocated utilities in area"),
   ("deep_utilities", "Possible utilities in area deeper than the scan capabilities due to geophysical subsurface conditions"),
   ("no_documentation", "No BC One Call/Site Plans/As-Builts for the area")]

/-- Source class `HydrovacRecommendation` (objects.py:283). -/
structure HydrovacRecommendation where
  recommended : Bool
  reasons : String → Bool
  custom_notes : String

/-- Source `HydrovacRecommendation.get_selected_reasons` (objects.py:299):
the lower-cased text of each selected reason, in the fixed order. -/
def HydrovacRecommendation.get_selected_reasons (h : HydrovacRecommendation) : List String :=
  (STANDARD_REASONS.filter (fun p => h.reasons p.1)).map (fun p => pyLower p.2)

/-- Source `HydrovacRecommendation.format_section` (objects.py:307). -/
def HydrovacRecommendation.format_section (h : HydrovacRecommendation) : String :=
  if h.recommended = false then ""
  else
    let selected := h.get_selected_reasons
    let output := "HYDROVAC RECOMMENDED:\r" ++
      (if selected ≠ [] then
        "Hydrovac exposure is recommended due to: " ++ oxford_join selected ++ "."
      else "Hydrovac exposure is recommended.")
    if h.custom_notes ≠ "" then output ++ "\r" ++ h.custom_notes else output

/-- The just-initialised hydrovac object (objects.py:293). -/
def initHydrovac : HydrovacRecommendation :=
  ⟨false, fun _ => false, ""⟩

/-- Source class `LocateReport` (objects.py:366), restricted to the fields
the formatting entry points read.  `supp` and `mat` return the rendered
text of a supplemental/material value (`none`/`""` for an absent or falsy
one). -/
structure LocateReport where
  utilities : UtilityMatrix
  job : MultiDayJob
  hydrovac : HydrovacRecommendation
  missing_docs : String → Bool
  bc1_provider : Option String
  bc1_number : Option String
  property_type : Option String
  recommendations : Option String
  travel_notes : Option String
  site_conditions : Option String
  supp : String → Option String
  mat : String → Option String

/-- Source `LocateReport.format_bc1_display` (objects.py:381). -/
def LocateReport.format_bc1_display (r : LocateReport) : String :=
  let provider := r.bc1_provider
  let number := r.bc1_number.getD ""
  if provider = some "None" then "No BC 1 Call completed"
  else
    let suffix :=
      if provider = some "Client" then " (Provided by Client)"
      else if provider = some "Quadra" then " (Provided by Quadra)"
      else ""
    if number = "" ∧ suffix = "" then ""
    else if number = "" then pyStripChars [' ', '(', ')'] suffix
    else number ++ suffix

/-- The fixed `doc_labels` of `format_missing_docs_sentence`
(objects.py:405), in declaration order. -/
def docLabels : List (String × String) :=
  [("hydro", "BC Hydro"), ("comm", "Communications"), ("gas", "Fortis"),
   ("municipal", "Municipal"), ("pipeline", "Pipeline"), ("asbuilts", "As-builts")]

/-- Source `LocateReport.format_missing_docs_sentence` (objects.py:402). -/
def LocateReport.format_missing_docs_sentence (r : LocateReport) : String :=
  let missing := (docLabels.filter (fun p => r.missing_docs p.1)).map (fun p => p.2)
  if missing = [] then ""
  else
    oxford_join missing ++
      " documentation missing on site. It is the responsibility of the Ground Disturber, prior to ground disturbance, to obtain and review said documentation."

/-- Source `LocateReport.format_recommendations` (objects.py:426). -/
def LocateReport.format_recommendations (r : LocateReport) : String :=
  let reco := r.recommendations.getD ""
  let missing_sentence := r.format_missing_docs_sentence
  let reco :=
    if missing_sentence ≠ "" then
      if reco ≠ "" then reco ++ "\r\r" ++ missing_sentence else missing_sentence
    else reco
  if reco ≠ "" then "RECOMMENDATIONS:\r" ++ reco else ""

/-- The fixed supplemental fields of `format_supplemental`
(objects.py:478). -/
def suppFields : List (String × String) :=
  [("parking", "Parking"), ("traffic_control", "Traffic control"),
   ("permits", "Permitting"), ("desktop", "Desktop review"), ("cad", "AutoCAD"),
   ("coring", "Coring"), ("vapour_probes", "Vapour probes"),
   ("camera", "Camera inspection"), ("data_processing", "Data processing"),
   ("orientation", "Orientation Time"), ("sketch", "Report Drafting"),
   ("kms", "Kilometres"), ("loa", "LOA")]

/-- Source `LocateReport.format_supplemental` (objects.py:475). -/
def LocateReport.format_supplemental (r : LocateReport) : String :=
  String.intercalate "; "
    (suppFields.filterMap (fun p =>
      match r.supp p.1 with
      | some v => if v ≠ "" then some (p.2 ++ " = " ++ v) else none
      | none => none))

/-- The fixed material fields of `format_materials` (objects.py:504). -/
def matFields : List (String × String) :=
  [("pin_flags", "Pin flags"), ("lathe_24", "Lathe 24\""), ("lathe_48", "Lathe 48\"")]

/-- Source `LocateReport.format_materials` (objects.py:501). -/
def LocateReport.format_materials (r : LocateReport) : String :=
  String.intercalate "; "
    (matFields.filterMap (fun p =>
      match r.mat p.1 with
      | some v => if v ≠ "" then some (p.2 ++ " x" ++ v) else none
      | none => none))

/-- Source `LocateReport.format_property_type` (objects.py:517). -/
def LocateReport.format_property_type (r : LocateReport) : String :=
  if r.property_type = some "Private" then "Private property"
  else if r.property_type = some "Public" then "Public property"
  else if r.property_type = some "Both" then "Public and private property"
  else ""

/-- Source `HEADER_WIDTH` (objects.py:649). -/
def HEADER_WIDTH : Nat := 18

/-- Source `make_line` (objects.py:651): empty content gives `""`;
otherwise `header + ":"` padded with spaces to `HEADER_WIDTH` (the
source's `while` loop), then the content. -/
def make_line (header content : String) : String :=
  if content = "" then ""
  else
    (header ++ ":") ++
      String.mk (List.replicate (HEADER_WIDTH - (header ++ ":").length) ' ') ++ content

/-- Source `make_continuation_line` (objects.py:661). -/
def make_continuation_line (content : String) : String :=
  if content = "" then ""
  else String.mk (List.replicate HEADER_WIDTH ' ') ++ content

/-- Splitting a character list at every `'\r'` (Python `s.split("\r")`);
`cur` is the reversed current chunk. -/
def splitCRAux : List Char → List Char → List String
  | [], cur => [String.mk cur.reverse]
  | c :: rest, cur =>
    if c = '\r' then String.mk cur.reverse :: splitCRAux rest []
    else splitCRAux rest (c :: cur)

/-- Python `s.split("\r")`. -/
def pySplitCR (s : String) : List String :=
  splitCRAux s.toList []

/-- Source `LocateReport.format_billing_details` (objects.py:441), with
the Python `lines.append` sequence rendered as successive list appends. -/
def LocateReport.format_billing_details (r : LocateReport) : String :=
  let lines : List String := []
  let time_on_site := r.job.format_time_on_site
  let lines := if time_on_site ≠ "" then lines ++ [make_line "TIME ON SITE" time_on_site] else lines
  let type_time := r.job.format_type_time
  let lines :=
    if type_time ≠ "" then
      match pySplitCR type_time with
      | [] => lines
      | h :: rest => lines ++ [make_line "TYPE/TIME" h] ++ rest.map make_continuation_line
    else lines
  let supp_items := r.format_supplemental
  let lines := if supp_items ≠ "" then lines ++ [make_line "SUPPLEMENTAL" supp_items] else lines
  let mat_items := r.format_materials
  let lines := if mat_items ≠ "" then lines ++ [make_line "MATERIALS" mat_items] else lines
  let prop_type := r.format_property_type
  let lines := if prop_type ≠ "" then lines ++ [make_line "PROPERTY TYPE" prop_type] else lines
  String.intercalate "\r" lines

/-- Source `LocateReport.format_combined_report` (objects.py:528). -/
def LocateReport.format_combined_report (r : LocateReport) : String :=
  let sections : List String := []
  let travel := r.travel_notes.getD ""
  let sections := if travel ≠ "" then sections ++ ["TRAVEL NOTES:\r" ++ travel] else sections
  let site_cond := r.site_conditions.getD ""
  let sections :=
    if site_cond ≠ "" then
      sections ++
        ["SITE CONDITIONS (Obstructions, inaccessible areas, changes to scope etc.):\r" ++ site_cond]
    else sections
  let sections := r.utilities.get_active_utilities.foldl
    (fun a u => let s := u.format_section; if s ≠ "" then a ++ [s] else a) sections
  let sections :=
    let hydrovac_section := r.hydrovac.format_section
    if hydrovac_section ≠ "" then sections ++ [hydrovac_section] else sections
  let sections :=
    let reco_section := r.format_recommendations
    if reco_section ≠ "" then sections ++ [reco_section] else sections
  String.intercalate "\r\r" sections

/-- The job built by `MultiDayJob.init` (objects.py:194): not multi-day,
no work days yet. -/
def initJob : MultiDayJob := ⟨false, []⟩

/-- A `LocateReport` as `LocateReport.init` (objects.py:369) leaves it,
before the interview sets any field: fresh sub-objects, empty
dictionaries, and no scalar attributes. -/
def initLocateReport : LocateReport :=
  ⟨initUtilityMatrix, initJob, initHydrovac, fun _ => false,
   none, none, none, none, none, none, fun _ => none, fun _ => none⟩

/-! ## Dynamic fragment

`Technician.hours` values are set by the external interview layer and may
hold Python `None` (the source itself coerces with `x or 0` in its sums).
This fragment extends the technician model with possibly-`None` hour
values and tracks, with `Except`, the `TypeError` Python raises when
`has_any_hours` compares such a value with `0`. -/

/-- A technician whose stored hour values may be Python `None`. -/
structure DynTechnician where
  name : Option String
  hours : HourType → Option PyNum

/-- The message of Python's `None > 0` comparison failure. -/
def noneGtMsg : String :=
  "TypeError: '>' not supported between instances of 'NoneType' and 'int'"

/-- Source `Technician.has_any_hours` (objects.py:127) on dynamic values:
`self.hours.get(ht, 0) > 0` raises `TypeError` when the stored value is
`None`; a positive value returns early. -/
def dynHasAnyHoursAux (t : DynTechnician) : List HourType → Except String Bool
  | [] => .ok false
  | ht :: rest =>
    match t.hours ht with
    | some v => if pyPos v then .ok true else dynHasAnyHoursAux t rest
    | none => .error noneGtMsg

/-- `Technician.has_any_hours` over the fixed key order, dynamic values. -/
def dynHasAnyHours (t : DynTechnician) : Except String Bool :=
  dynHasAnyHoursAux t HOUR_TYPES

/-- Source `Technician.format_hours_line` (objects.py:141) on dynamic
values: `if value and float(value) > 0` skips `None` (falsy) without
raising. -/
def dynFormatHoursLine (t : DynTechnician) : String :=
  String.intercalate "; "
    (HOUR_TYPES.filterMap (fun ht =>
      match t.hours ht with
      | some v => if pyPos v then some (hourLabel ht ++ " = " ++ format_number v) else none
      | none => none))

/-- Source `Technician.format_tech_line` (objects.py:153), dynamic
values. -/
def dynFormatTechLine (t : DynTechnician) : String :=
  let hours_str := dynFormatHoursLine t
  if hours_str ≠ "" then t.name.getD "Unknown" ++ ": " ++ hours_str
  else t.name.getD "Unknown"

/-- A work day over dynamic technicians. -/
structure DynWorkDay where
  date : Option String
  technicians : List DynTechnician

/-- Source `WorkDay.get_all_hours_by_type` (objects.py:182): the
`float(x or 0)` coercion maps `None` to `0`, so this never raises. -/
def dynGetAllHoursByType (d : DynWorkDay) : HourMap :=
  d.technicians.foldl
    (fun totals t => fun ht => pyAdd (totals ht) ((t.hours ht).getD pyZero))
    zeroHours

/-- A multi-day job over dynamic technicians. -/
structure DynMultiDayJob where
  is_multi_day : Bool
  work_days : List DynWorkDay

/-- Source `MultiDayJob.get_all_technicians` (objects.py:199) on dynamic
values (`float(x or 0)` again coerces `None`). -/
def dynGetAllTechnicians (j : DynMultiDayJob) : List (String × HourMap) :=
  j.work_days.foldl
    (fun acc d => d.technicians.foldl
      (fun a t => addTechHours a (t.name.getD "Unknown") (fun ht => (t.hours ht).getD pyZero)) acc)
    []

/-- Source `MultiDayJob.get_combined_totals` (objects.py:211), dynamic
values. -/
def dynGetCombinedTotals (j : DynMultiDayJob) : HourMap :=
  j.work_days.foldl
    (fun totals d => fun ht => pyAdd (totals ht) (dynGetAllHoursByType d ht))
    zeroHours

/-- The `Day (...)` date prefix on dynamic work days. -/
def dynDayDateStr (d : DynWorkDay) : String :=
  match d.date with
  | some dt => format_date dt
  | none => "Unknown"

/-- Source `MultiDayJob.format_type_time` (objects.py:237) on dynamic hour
values: every call to `has_any_hours` may raise, which `Except` threads
through exactly as Python propagates the exception. -/
def dynFormatTypeTime (j : DynMultiDayJob) : Except String String :=
  if j.is_multi_day = false ∨ j.work_days.length ≤ 1 then
    match j.work_days with
    | [] => .ok (String.intercalate "\r" [])
    | d :: _ => do
      let lines ← d.technicians.foldlM
        (fun a t => do
          let b ← dynHasAnyHours t
          pure (if b then a ++ [dynFormatTechLine t] else a)) ([] : List String)
      let cnt ← d.technicians.foldlM
        (fun n t => do
          let b ← dynHasAnyHours t
          pure (if b then n + 1 else n)) (0 : Nat)
      let lines :=
        if 2 ≤ cnt then
          let totals_line := format_totals_line (dynGetAllHoursByType d)
          if totals_line ≠ "" then lines ++ ["Total: " ++ totals_line] else lines
        else lines
      pure (String.intercalate "\r" lines)
  else do
    let lines ← j.work_days.foldlM
      (fun a d => do
        let tech_parts ← d.technicians.foldlM
          (fun p t => do
            let b ← dynHasAnyHours t
            pure (if b then p ++ [dynFormatTechLine t] else p)) ([] : List String)
        pure (if tech_parts ≠ [] then
          a ++ ["Day (" ++ dynDayDateStr d ++ "): " ++ String.intercalate " | " tech_parts]
        else a))
      ([] : List String)
    let all_techs := dynGetAllTechnicians j
    let lines :=
      if all_techs.isEmpty = false then
        let lines := lines ++ ["", "TOTALS:"]
        let lines := all_techs.foldl
          (fun a nt =>
            let tech_total := format_totals_line nt.2
            if tech_total ≠ "" then a ++ ["  " ++ nt.1 ++ ": " ++ tech_total] else a)
          lines
        let combined_line := format_totals_line (dynGetCombinedTotals j)
        if combined_line ≠ "" then lines ++ ["  Combined: " ++ combined_line] else lines
      else lines
    pure (String.intercalate "\r" lines)

/-! ## Statement-side definitions

These definitions transcribe the wording of the claims (after any
correction) so the theorems can compare the code's functions against
them. -/

/-- The digit rule exactly as the claim states it: strip `':'`, read up to
2 digits as the hour with zero minutes, otherwise the last two digits as
minutes and the rest as the hour; then the four 12-hour branches. -/
def digitRuleSpec (s : String) : String :=
  let ds := s.toList.filter (fun c => c != ':')
  let hm : Nat × Nat :=
    if ds.length ≤ 2 then (natOfDigits ds, 0)
    else (natOfDigits (ds.take (ds.length - 2)), natOfDigits (ds.drop (ds.length - 2)))
  let h := hm.1
  let m := hm.2
  if h = 0 ∨ h = 24 then "12:" ++ pad2Nat m ++ " am"
  else if h < 12 then natToStr h ++ ":" ++ pad2Nat m ++ " am"
  else if h = 12 then "12:" ++ pad2Nat m ++ " pm"
  else natToStr (h - 12) ++ ":" ++ pad2Nat m ++ " pm"

/-- One multi-day `TYPE/TIME` day line as the (corrected) claim describes
it: the day's hour-bearing technicians' lines joined with `" | "`, or
nothing when no technician of the day has hours. -/
def specDayLine (d : WorkDay) : Option String :=
  let parts := (d.technicians.filter (fun t => t.has_any_hours)).map
    (fun t => t.format_tech_line)
  if parts = [] then none
  else some ("Day (" ++ dayDateStr d ++ "): " ++ String.intercalate " | " parts)

/-- The multi-day `TYPE/TIME` totals block as the (corrected) claim
describes it: present as soon as any technician appears on any day; a
blank line and `TOTALS:`, one indented line per distinct technician name
whose summed hours produce a non-empty totals line, and a `Combined:`
line when the grand totals line is non-empty. -/
def specTypeTimeTotals (j : MultiDayJob) : List String :=
  let all_techs := j.get_all_technicians
  if all_techs.isEmpty then []
  else
    ["", "TOTALS:"] ++
      (all_techs.filterMap (fun nt =>
        if format_totals_line nt.2 = "" then none
        else some ("  " ++ nt.1 ++ ": " ++ format_totals_line nt.2))) ++
      (if format_totals_line j.get_combined_totals ≠ "" then
        ["  Combined: " ++ format_totals_line j.get_combined_totals]
      else [])

/-- The whole multi-day `TYPE/TIME` output as the (corrected) claim
describes it. -/
def specTypeTimeMulti (j : MultiDayJob) : String :=
  String.intercalate "\r" (j.work_days.filterMap specDayLine ++ specTypeTimeTotals j)

/-- A billing section as the claim describes one: nothing when the content
is empty, else the single aligned header line. -/
def billingSection (header content : String) : List String :=
  if content = "" then [] else [make_line header content]

/-- The `TYPE/TIME` billing block as the (corrected) claim describes it:
the first split line on the header line, every further split line as a
continuation line (indented when non-empty, an empty line otherwise). -/
def billingTypeTimeBlock (type_time : String) : List String :=
  if type_time = "" then []
  else
    match pySplitCR type_time with
    | [] => []
    | h :: rest => [make_line "TYPE/TIME" h] ++ rest.map make_continuation_line

/-- The billing-details line list as the (corrected) claim describes it:
the five sections in fixed order, each omitted entirely when its content
is empty. -/
def specBillingLines (r : LocateReport) : List String :=
  billingSection "TIME ON SITE" r.job.format_time_on_site ++
  billingTypeTimeBlock r.job.format_type_time ++
  billingSection "SUPPLEMENTAL" r.format_supplemental ++
  billingSection "MATERIALS" r.format_materials ++
  billingSection "PROPERTY TYPE" r.format_property_type

/-- The aligned header prefix the claim asserts every section line starts
with: the header, a colon, and spaces up to the global width of 18. -/
def paddedHeader (h : String) : String :=
  (h ++ ":") ++ String.mk (List.replicate (HEADER_WIDTH - (h ++ ":").length) ' ')

/-- A structural `startsWith` (kernel-reducible). -/
def strStarts (p s : String) : Bool :=
  leadMatch p.toList s.toList

/-- The line shape claim C4 asserts for every billing-details line: an
aligned header line of one of the five fixed sections, or a continuation
line indented to the same 18-character column. -/
def isClaimBillingLine (l : String) : Bool :=
  (["TIME ON SITE", "TYPE/TIME", "SUPPLEMENTAL", "MATERIALS", "PROPERTY TYPE"].any
    (fun h => strStarts (paddedHeader h) l)) ||
  strStarts (String.mk (List.replicate HEADER_WIDTH ' ')) l

/-! ## Concrete instances used by witnesses and counterexamples -/

/-- A technician with 2 EM hours. -/
def techA : Technician :=
  ⟨some "A", fun ht => match ht with | .em => ⟨2, 1⟩ | _ => pyZero⟩

/-- A technician with 1 GPR hour. -/
def techB : Technician :=
  ⟨some "B", fun ht => match ht with | .gpr => ⟨1, 1⟩ | _ => pyZero⟩

/-- A technician with all hours zero. -/
def techZ : Technician := ⟨some "Z", fun _ => pyZero⟩

/-- A technician with a positive EM value below the 2-decimal rounding
threshold (`0.004` hours). -/
def techTiny : Technician :=
  ⟨some "T", fun ht => match ht with | .em => ⟨1, 250⟩ | _ => pyZero⟩

/-- A work day from 0900 to 1700 with technician `A`. -/
def dayA : WorkDay := ⟨none, some (TimeVal.s "0900"), some (TimeVal.s "1700"), [techA]⟩

/-- A work day with technician `B` and no times. -/
def dayB : WorkDay := ⟨none, none, none, [techB]⟩

/-- A work day with only the zero-hours technician. -/
def dayZ : WorkDay := ⟨none, none, none, [techZ]⟩

/-- A two-day multi-day job with hour-bearing technicians. -/
def mjMulti : MultiDayJob := ⟨true, [dayA, dayB]⟩

/-- A two-day multi-day job whose only technician has zero hours. -/
def mjZeroHours : MultiDayJob := ⟨true, [dayZ, ⟨none, none, none, []⟩]⟩

/-- A single-day job holding just `dayA`. -/
def jobOneDay : MultiDayJob := ⟨false, [dayA]⟩

/-- A job with `is_multi_day = False` but three recorded days, the first
of which agrees with `jobOneDay`'s. -/
def jobThreeDaysFlagOff : MultiDayJob := ⟨false, [dayA, dayB, dayZ]⟩

/-- A report whose only populated field is `travel_notes`. -/
def reportTravelOnly : LocateReport :=
  { initLocateReport with travel_notes := some "Rain delay" }

/-- A default report carrying the multi-day job `mjMulti`. -/
def reportMultiBilling : LocateReport :=
  { initLocateReport with job := mjMulti }

/-- A dynamic technician whose `em` hours hold Python `None`. -/
def badTech : DynTechnician :=
  ⟨some "T", fun ht => match ht with | .em => none | _ => some pyZero⟩

/-- A single-day dynamic job holding `badTech`. -/
def badJob : DynMultiDayJob := ⟨false, [⟨none, [badTech]⟩]⟩

/-! ## Claim theorems -/

/-- Claim C8: `format_number` rounds to 2 decimal places and strips
trailing zeros and a trailing decimal point: `format_number(2.5) = "2.5"`,
`format_number(2.0) = "2"`, `format_number(0) = "0"`, and
`format_number(1.333) = "1.33"`. -/
theorem format_number_trims_C8 :
    format_number ⟨5, 2⟩ = "2.5" ∧ format_number ⟨2, 1⟩ = "2" ∧
    format_number ⟨0, 1⟩ = "0" ∧ format_number ⟨1333, 1000⟩ = "1.33" := by
  decide

/-- Claim C7: a report with only `travel_notes = "Rain delay"` set and
everything else at its constructed default renders the combined report as
exactly `"TRAVEL NOTES:\rRain delay"`. -/
theorem combined_report_travel_only_C7 :
    reportTravelOnly.format_combined_report = "TRAVEL NOTES:\rRain delay" := by
  decide

/-- Claim C5 (code bug): `Technician.has_any_hours` compares a stored
`None` hour value with `0` (`self.hours.get(ht, 0) > 0`), which raises
`TypeError` in Python 3; `format_type_time` therefore raises on a job
whose technician carries a `None` hour value, contradicting the spec's
guarantee that no formatting function raises on malformed optional
input.  (The source's own sums coerce with `float(x or 0)`, so the
unguarded comparison is a slip.) -/
theorem has_any_hours_none_raises_C5 :
    dynHasAnyHours badTech = Except.error noneGtMsg ∧
    dynFormatTypeTime badJob = Except.error noneGtMsg :=
  ⟨rfl, rfl⟩

/-- Claim C2 (counterexample): `format_time_12hr` lower-cases before the
`try` block, so the unparseable input `"XYZ"` — non-empty, free of
`"am"`/`"pm"`, and rejected by the digit rule — comes back as `"xyz"`,
not as the original string. -/
theorem format_time_12hr_not_unchanged_C2 :
    format_time_12hr (some (TimeVal.s "XYZ")) = "xyz" ∧ "xyz" ≠ "XYZ" ∧
    "XYZ" ≠ "" ∧
    hasSub "am" (pyLower (pyStrip "XYZ")) = false ∧
    hasSub "pm" (pyLower (pyStrip "XYZ")) = false ∧
    parseDigitRule (pyLower (pyStrip "XYZ")) = none := by
  decide

/-- Claim C2 (corrected): for every non-empty time string whose
stripped/lower-cased form contains neither `"am"` nor `"pm"` and fails
the digit rule, `format_time_12hr` returns the stripped, lower-cased form
of the input (so the input itself exactly when it is already stripped and
lower-case) and raises no error — the source's catch-all `except` returns
this value. -/
theorem format_time_12hr_unparseable_C2 (s : String) (h0 : s ≠ "")
    (ham : hasSub "am" (pyLower (pyStrip s)) = false)
    (hpm : hasSub "pm" (pyLower (pyStrip s)) = false)
    (hparse : parseDigitRule (pyLower (pyStrip s)) = none) :
    format_time_12hr (some (TimeVal.s s)) = pyLower (pyStrip s) := by
  unfold format_time_12hr
  simp only [h0, if_false, ham, hpm, Bool.or_self, Bool.false_eq_true, if_neg, hparse]

/-- Witness for C2's corrected claim at the already-lower-case input
`"junk"`. -/
theorem format_time_12hr_unparseable_C2_witness :
    format_time_12hr (some (TimeVal.s "junk")) = "junk" :=
  (format_time_12hr_unparseable_C2 "junk" (by decide) (by decide) (by decide)
    (by decide)).trans (by decide)

/-- Claim C9: `format_bc1_display` with provider `"Client"`/`"Quadra"`
and an absent or empty call number returns the bare attribution text
(no parentheses), and with both provider and number absent returns
`""`. -/
theorem bc1_display_no_number_C9 (r : LocateReport)
    (hn : r.bc1_number.getD "" = "") :
    (r.bc1_provider = some "Client" → r.format_bc1_display = "Provided by Client") ∧
    (r.bc1_provider = some "Quadra" → r.format_bc1_display = "Provided by Quadra") ∧
    (r.bc1_provider = none → r.format_bc1_display = "") := by
  refine ⟨fun hp => ?_, fun hp => ?_, fun hp => ?_⟩ <;>
    · unfold LocateReport.format_bc1_display
      rw [hp, hn]
      decide

/-- Witness for C9 at concrete reports. -/
theorem bc1_display_no_number_C9_witness :
    ({ initLocateReport with bc1_provider := some "Client" } : LocateReport).format_bc1_display
        = "Provided by Client" ∧
    ({ initLocateReport with bc1_provider := some "Quadra" } : LocateReport).format_bc1_display
        = "Provided by Quadra" ∧
    initLocateReport.format_bc1_display = "" :=
  ⟨(bc1_display_no_number_C9
      { initLocateReport with bc1_provider := some "Client" } rfl).1 rfl,
   (bc1_display_no_number_C9
      { initLocateReport with bc1_provider := some "Quadra" } rfl).2.1 rfl,
   (bc1_display_no_number_C9 initLocateReport rfl).2.2 rfl⟩

/-- Claim C1: when a `MultiDayJob` is not flagged multi-day (or holds at
most one day), `format_time_on_site` and `format_type_time` depend only
on the first work day's times and technicians: two such jobs whose first
days agree on those fields format identically, whatever else their day
lists contain. -/
theorem single_day_path_first_day_only_C1 (j1 j2 : MultiDayJob) (d1 d2 : WorkDay)
    (r1 r2 : List WorkDay)
    (hw1 : j1.work_days = d1 :: r1) (hw2 : j2.work_days = d2 :: r2)
    (hp1 : j1.is_multi_day = false ∨ j1.work_days.length ≤ 1)
    (hp2 : j2.is_multi_day = false ∨ j2.work_days.length ≤ 1)
    (hs : d1.start_time = d2.start_time) (he : d1.end_time = d2.end_time)
    (ht : d1.technicians = d2.technicians) :
    j1.format_time_on_site = j2.format_time_on_site ∧
    j1.format_type_time = j2.format_type_time := by
  constructor
  · unfold MultiDayJob.format_time_on_site
    rw [if_pos hp1, if_pos hp2, hw1, hw2]
    show d1.format_time_range = d2.format_time_range
    unfold WorkDay.format_time_range
    rw [hs, he]
  · unfold MultiDayJob.format_type_time
    rw [if_pos hp1, if_pos hp2, hw1, hw2]
    show String.intercalate "\r" _ = String.intercalate "\r" _
    unfold WorkDay.get_all_hours_by_type
    rw [ht]

/-- Witness for C1: a one-day job against a three-day job with the same
first day and the multi-day flag off. -/
theorem single_day_path_first_day_only_C1_witness :
    jobOneDay.format_time_on_site = jobThreeDaysFlagOff.format_time_on_site ∧
    jobOneDay.format_type_time = jobThreeDaysFlagOff.format_type_time :=
  single_day_path_first_day_only_C1 jobOneDay jobThreeDaysFlagOff dayA dayA
    [] [dayB, dayZ] rfl rfl (Or.inl rfl) (Or.inl rfl) rfl rfl rfl

/-! ## Lemmas about the digit rendering -/

/-- Strings are equal when their character lists are. -/
theorem strExt {s t : String} (h : s.data = t.data) : s = t := by
  cases s; cases t; cases h; rfl

/-- Appending strings appends their character lists. -/
theorem strData_append (a b : String) : (a ++ b).data = a.data ++ b.data := by
  cases a; cases b; rfl

/-- `dropWhile` is the identity when the predicate holds nowhere. -/
theorem dropWhile_all_false {p : Char → Bool} :
    ∀ l : List Char, (∀ x ∈ l, p x = false) → l.dropWhile p = l := by
  intro l h
  cases l with
  | nil => rfl
  | cons a t => simp [List.dropWhile_cons, h a (by simp)]

/-- `rstrip` does nothing when the final character differs. -/
theorem rstripChar_append_ne (c x : Char) (l : List Char) (h : x ≠ c) :
    rstripChar c (String.mk (l ++ [x])) = String.mk (l ++ [x]) := by
  unfold rstripChar
  simp [List.dropWhile_cons, h]

/-- `rstrip` removes a final matching character and continues. -/
theorem rstripChar_append_eq (c : Char) (l : List Char) :
    rstripChar c (String.mk (l ++ [c])) = rstripChar c (String.mk l) := by
  unfold rstripChar
  simp [List.dropWhile_cons]

/-- `rstrip` is the identity when the character occurs nowhere. -/
theorem rstripChar_no_occurrence (c : Char) (l : List Char)
    (h : ∀ x ∈ l, x ≠ c) : rstripChar c (String.mk l) = String.mk l := by
  unfold rstripChar
  rw [dropWhile_all_false]
  · simp
  · intro x hx
    simp only [List.mem_reverse] at hx
    simp [h x hx]

/-- `digitChar` never yields a point. -/
theorem digitChar_ne_dot (d : Nat) : digitChar d ≠ '.' := by
  unfold digitChar
  split <;> decide

/-- `digitChar` of a nonzero digit is not `'0'`. -/
theorem digitChar_ne_zero (d : Nat) (h1 : 1 ≤ d) (h2 : d < 10) : digitChar d ≠ '0' := by
  interval_cases d <;> decide

/-- Digit lists are never empty. -/
theorem natDigitsAux_ne_nil (fuel n : Nat) (h : 0 < fuel) : natDigitsAux fuel n ≠ [] := by
  cases fuel with
  | zero => omega
  | succ f =>
    unfold natDigitsAux
    split <;> simp

/-- One-digit numbers render as their single digit. -/
theorem natDigitsAux_small (fuel n : Nat) (hf : 0 < fuel) (hn : n < 10) :
    natDigitsAux fuel n = [digitChar n] := by
  cases fuel with
  | zero => omega
  | succ f =>
    unfold natDigitsAux
    rw [if_pos hn]

/-- Every character of a digit list is a `digitChar`. -/
theorem natDigitsAux_digit_mem :
    ∀ fuel n c, c ∈ natDigitsAux fuel n → ∃ d, d < 10 ∧ c = digitChar d := by
  intro fuel
  induction fuel with
  | zero => intro n c hc; simp [natDigitsAux] at hc
  | succ f ih =>
    intro n c hc
    unfold natDigitsAux at hc
    by_cases hn : n < 10
    · rw [if_pos hn, List.mem_singleton] at hc
      exact ⟨n, hn, hc⟩
    · rw [if_neg hn, List.mem_append] at hc
      rcases hc with h1 | h2
      · exact ih _ c h1
      · rw [List.mem_singleton] at h2
        exact ⟨n % 10, Nat.mod_lt _ (by omega), h2⟩

/-- The digit list of `n` ends with the digit of `n % 10`. -/
theorem natDigits_last (n : Nat) :
    ∃ l, natDigitsAux (n + 1) n = l ++ [digitChar (n % 10)] := by
  by_cases h : n < 10
  · refine ⟨[], ?_⟩
    rw [natDigitsAux_small _ _ (by omega) h, Nat.mod_eq_of_lt h]
    rfl
  · refine ⟨natDigitsAux n (n / 10), ?_⟩
    conv_lhs => unfold natDigitsAux
    rw [if_neg h]

/-- `str(n)` is `"0"` only for `n = 0`. -/
theorem natToStr_ne_zero (n : Nat) (h : 1 ≤ n) : natToStr n ≠ "0" := by
  by_cases hn : n < 10
  · rw [natToStr, natDigitsAux_small _ _ (by omega) hn]
    intro heq
    have hlist : [digitChar n] = ['0'] := congrArg String.data heq
    exact digitChar_ne_zero n h hn (List.head_eq_of_cons_eq hlist)
  · intro heq
    have hlist : natDigitsAux (n + 1) n = ['0'] := congrArg String.data heq
    unfold natDigitsAux at hlist
    rw [if_neg hn] at hlist
    rcases hne : natDigitsAux n (n / 10) with _ | ⟨c, cs⟩
    · exact natDigitsAux_ne_nil n (n / 10) (by omega) hne
    · rw [hne] at hlist
      simp at hlist

/-- The last two rendered decimal digits end with the digit of `f % 10`. -/
theorem pad2_last (f : Nat) (hlt : f < 100) :
    ∃ l, (pad2Nat f).data = l ++ [digitChar (f % 10)] := by
  by_cases h : f < 10
  · refine ⟨['0'], ?_⟩
    rw [pad2Nat, if_pos h, strData_append, natToStr,
      natDigitsAux_small _ _ (by omega) h, Nat.mod_eq_of_lt h]
  · obtain ⟨l, hl⟩ := natDigits_last f
    refine ⟨l, ?_⟩
    rw [pad2Nat, if_neg h, natToStr, hl]

/-- Rounding a non-negative fraction is non-negative. -/
theorem pyRound_nonneg (a : PyNum) (hd : 0 < a.den) (hn : 0 ≤ a.num) :
    0 ≤ pyRound a := by
  have hf : 0 ≤ Int.fdiv a.num a.den := Int.fdiv_nonneg hn (le_of_lt hd)
  simp only [pyRound, pyFloor]
  split_ifs <;> omega

/-- The `:.2f` rendering of a positive number of hundredths never strips
down to `"0"`. -/
theorem fnRender_ne_zero (k : ℤ) (hk : 1 ≤ k) : fnRender k ≠ "0" := by
  simp only [fnRender]
  rw [if_neg (by omega : ¬ k < 0)]
  have ha1 : 1 ≤ k.natAbs := by omega
  set a := k.natAbs with ha
  set i := a / 100 with hi
  set f := a % 100 with hf
  have hIne : natDigitsAux (i + 1) i ≠ [] := natDigitsAux_ne_nil _ _ (by omega)
  have hImem : ∀ x ∈ natDigitsAux (i + 1) i, x ≠ '.' := by
    intro x hx
    obtain ⟨d, _, rfl⟩ := natDigitsAux_digit_mem _ _ _ hx
    exact digitChar_ne_dot d
  have key : ("" ++ natToStr i ++ "." ++ pad2Nat f : String)
      = String.mk (natDigitsAux (i + 1) i ++ '.' :: (pad2Nat f).data) := by
    apply strExt
    simp [strData_append, natToStr]
  rw [key]
  by_cases hf0 : f = 0
  · have hp : (pad2Nat f).data = ['0', '0'] := by rw [hf0]; rfl
    rw [hp]
    have hi1 : 1 ≤ i := by omega
    have e1 : natDigitsAux (i + 1) i ++ '.' :: ['0', '0']
        = ((natDigitsAux (i + 1) i ++ ['.']) ++ ['0']) ++ ['0'] := by simp
    rw [e1, rstripChar_append_eq, rstripChar_append_eq,
      rstripChar_append_ne '0' '.' _ (by decide),
      rstripChar_append_eq, rstripChar_no_occurrence '.' _ hImem]
    exact natToStr_ne_zero i hi1
  · have hflt : f < 100 := by omega
    by_cases h10 : f % 10 = 0
    · have hf10 : 10 ≤ f := by omega
      have hdiv : 1 ≤ f / 10 ∧ f / 10 < 10 := by omega
      have hp : (pad2Nat f).data = [digitChar (f / 10), '0'] := by
        rw [pad2Nat, if_neg (by omega : ¬ f < 10), natToStr]
        conv_lhs => unfold natDigitsAux
        rw [if_neg (by omega : ¬ f < 10),
          natDigitsAux_small _ _ (by omega) (by omega), h10]
        rfl
      rw [hp]
      have e1 : natDigitsAux (i + 1) i ++ '.' :: [digitChar (f / 10), '0']
          = (((natDigitsAux (i + 1) i ++ ['.']) ++ [digitChar (f / 10)])) ++ ['0'] := by simp
      rw [e1, rstripChar_append_eq,
        rstripChar_append_ne '0' _ _ (digitChar_ne_zero _ hdiv.1 hdiv.2),
        rstripChar_append_ne '.' _ _ (digitChar_ne_dot _)]
      intro heq
      have hlen := congrArg (fun s => s.data.length) heq
      simp at hlen
    · have hmod : 1 ≤ f % 10 ∧ f % 10 < 10 := by omega
      obtain ⟨l, hl⟩ := pad2_last f hflt
      rw [hl]
      have e1 : natDigitsAux (i + 1) i ++ '.' :: (l ++ [digitChar (f % 10)])
          = ((natDigitsAux (i + 1) i ++ '.' :: l)) ++ [digitChar (f % 10)] := by simp
      rw [e1,
        rstripChar_append_ne '0' _ _ (digitChar_ne_zero _ hmod.1 hmod.2),
        rstripChar_append_ne '.' _ _ (digitChar_ne_dot _)]
      intro heq
      have hlen := congrArg (fun s => s.data.length) heq
      simp at hlen
      have hpos := List.length_pos.mpr hIne
      omega

/-- Claim C10 (counterexample): at the claim's own example `v = 0.004`
(`round(100 v) = 0`), `format_number` returns `"0"`, not the empty
string — `"0.00".rstrip('0')` stops at the decimal point — and
`format_hours_line` accordingly emits `"EM = 0"`, not `"EM = "`. -/
theorem format_number_not_empty_C10_counterexample :
    format_number ⟨1, 250⟩ = "0" ∧ format_number ⟨1, 250⟩ ≠ "" ∧
    pyRound (pyMulInt ⟨1, 250⟩ 100) = 0 ∧
    techTiny.format_hours_line = "EM = 0" := by
  decide

/-- Claim C10 (corrected): for strictly positive `v`, `format_number v`
collapses to the numeral `"0"` — never the empty string — exactly when
`round(100 v) = 0`; `format_hours_line` then emits `"Label = 0"` for a
positive value below the 2-decimal rounding threshold. -/
theorem format_number_tiny_renders_zero_C10 (v : PyNum)
    (hden : 0 < v.den) (hpos : 0 < v.num) :
    format_number v = "0" ↔ pyRound (pyMulInt v 100) = 0 := by
  have hz : v.isZero = false := by
    simp only [PyNum.isZero, beq_eq_false_iff_ne, ne_eq]
    omega
  constructor
  · intro h
    by_contra hk
    have hk0 : 0 ≤ pyRound (pyMulInt v 100) :=
      pyRound_nonneg _ (by simpa [pyMulInt] using hden) (by simp only [pyMulInt]; omega)
    have h1 : 1 ≤ pyRound (pyMulInt v 100) := by omega
    refine fnRender_ne_zero _ h1 ?_
    unfold format_number at h
    rw [hz] at h
    simpa using h
  · intro h
    unfold format_number
    rw [hz]
    simp only [Bool.false_eq_true, if_false]
    rw [h]
    decide

/-- Witness for C10's corrected claim at `v = 0.002`. -/
theorem format_number_tiny_renders_zero_C10_witness :
    format_number ⟨1, 500⟩ = "0" :=
  (format_number_tiny_renders_zero_C10 ⟨1, 500⟩ (by decide) (by decide)).mpr (by decide)

/-! ## Fold lemmas for the `TYPE/TIME` assembly -/

/-- The technician `lines.append` loop collects the hour-bearing
technicians' lines. -/
theorem tech_parts_fold (ts : List Technician) (acc : List String) :
    ts.foldl (fun p t => if t.has_any_hours then p ++ [t.format_tech_line] else p) acc
      = acc ++ (ts.filter (fun t => t.has_any_hours)).map (fun t => t.format_tech_line) := by
  induction ts generalizing acc with
  | nil => simp
  | cons t ts ih =>
    by_cases h : t.has_any_hours <;>
      simp [List.foldl_cons, h, ih, List.filter_cons]

/-- Python's `lines.append`-under-a-condition loop is a `filterMap`. -/
theorem foldl_opt_append {α β : Type} (f : α → Option β) (step : List β → α → List β)
    (hstep : ∀ a x, step a x = match f x with | some y => a ++ [y] | none => a)
    (l : List α) : ∀ acc : List β, l.foldl step acc = acc ++ l.filterMap f := by
  induction l with
  | nil => intro acc; simp
  | cons x xs ih =>
    intro acc
    rw [List.foldl_cons, List.filterMap_cons, hstep]
    cases hfx : f x <;> simp [hfx, ih]

/-- The per-day `lines.append` loop collects exactly the day lines of
`specDayLine`. -/
theorem day_lines_fold (ds : List WorkDay) (acc : List String) :
    ds.foldl
      (fun a d =>
        let tech_parts := d.technicians.foldl
          (fun p t => if t.has_any_hours then p ++ [t.format_tech_line] else p) []
        if tech_parts ≠ [] then
          a ++ ["Day (" ++ dayDateStr d ++ "): " ++ String.intercalate " | " tech_parts]
        else a) acc
      = acc ++ ds.filterMap specDayLine := by
  refine foldl_opt_append specDayLine _ ?_ ds acc
  intro a d
  dsimp only
  have hp : d.technicians.foldl
      (fun p t => if t.has_any_hours then p ++ [t.format_tech_line] else p) []
      = (d.technicians.filter (fun t => t.has_any_hours)).map (fun t => t.format_tech_line) := by
    simpa using tech_parts_fold d.technicians []
  rw [hp]
  by_cases hne : (d.technicians.filter (fun t => t.has_any_hours)).map
      (fun t => t.format_tech_line) = []
  · rw [if_neg (not_not_intro hne),
      show specDayLine d = none from by simp [specDayLine, hne]]
  · rw [if_pos hne,
      show specDayLine d = some ("Day (" ++ dayDateStr d ++ "): " ++ String.intercalate " | "
        ((d.technicians.filter (fun t => t.has_any_hours)).map (fun t => t.format_tech_line)))
      from by simp [specDayLine, hne]]

/-- The per-technician totals `lines.append` loop collects the non-empty
per-name totals lines. -/
theorem totals_fold (ats : List (String × HourMap)) (acc : List String) :
    ats.foldl
      (fun a nt =>
        let tech_total := format_totals_line nt.2
        if tech_total ≠ "" then a ++ ["  " ++ nt.1 ++ ": " ++ tech_total] else a) acc
      = acc ++ ats.filterMap (fun nt =>
          if format_totals_line nt.2 = "" then none
          else some ("  " ++ nt.1 ++ ": " ++ format_totals_line nt.2)) := by
  refine foldl_opt_append _ _ ?_ ats acc
  intro a nt
  dsimp only
  by_cases h : format_totals_line nt.2 = ""
  · rw [if_neg (not_not_intro h), if_pos h]
  · rw [if_pos h, if_neg h]

/-- Claim C3 (counterexample): a multi-day job whose only technician `Z`
has zero hours renders `TYPE/TIME` as just a blank line and the
`TOTALS:` header — no per-technician line for the distinct name `Z` and
no `Combined:` line, though the claim promises both. -/
theorem type_time_zero_hours_C3_counterexample :
    mjZeroHours.format_type_time = "\rTOTALS:" ∧
    mjZeroHours.is_multi_day = true ∧ 2 ≤ mjZeroHours.work_days.length ∧
    mjZeroHours.get_all_technicians.length = 1 ∧
    hasSub "Combined" mjZeroHours.format_type_time = false ∧
    hasSub "Z" mjZeroHours.format_type_time = false := by
  decide

/-- Claim C3 (corrected): on the multi-day path, `format_type_time` emits
one line per day joining the hour-bearing technicians' lines with
`" | "`, skipping days where no technician has hours; then — provided at
least one technician exists at all — a blank line, a `TOTALS:` header,
one indented line per distinct technician name whose summed hours give a
non-empty totals line (zero-hour names are skipped), and a `Combined:`
line only when the grand totals line is non-empty. -/
theorem type_time_multi_day_structure_C3 (j : MultiDayJob)
    (hm : j.is_multi_day = true) (hd : 2 ≤ j.work_days.length) :
    j.format_type_time = specTypeTimeMulti j := by
  have hcond : ¬ (j.is_multi_day = false ∨ j.work_days.length ≤ 1) := by
    rintro (h | h)
    · rw [hm] at h; exact absurd h (by decide)
    · omega
  unfold MultiDayJob.format_type_time specTypeTimeMulti specTypeTimeTotals
  rw [if_neg hcond]
  simp only [day_lines_fold, totals_fold]
  by_cases he : j.get_all_technicians.isEmpty
  · simp [he]
  · by_cases hc : format_totals_line j.get_combined_totals = "" <;>
      simp [he, hc, List.append_assoc]

/-- Witness for C3's corrected claim on a two-day job with hour-bearing
technicians. -/
theorem type_time_multi_day_structure_C3_witness :
    mjMulti.format_type_time = specTypeTimeMulti mjMulti :=
  type_time_multi_day_structure_C3 mjMulti rfl (by decide)

set_option maxRecDepth 100000 in
/-- Claim C4 (counterexample): on a default report carrying a multi-day
job, `format_billing_details` emits lines that are neither aligned
18-wide header lines nor 18-space continuation lines: the blank line
inside the `TYPE/TIME` block comes out empty (not indented), and the
embedded line break in the multi-day `TIME ON SITE` content puts
`"Day (Unknown): "` at column 0. -/
theorem billing_structure_C4_counterexample :
    (pySplitCR reportMultiBilling.format_billing_details).all isClaimBillingLine = false ∧
    "" ∈ pySplitCR reportMultiBilling.format_billing_details ∧
    "Day (Unknown): " ∈ pySplitCR reportMultiBilling.format_billing_details := by
  decide

/-- Claim C4 (corrected): `format_billing_details` emits at most the five
sections `TIME ON SITE`, `TYPE/TIME`, `SUPPLEMENTAL`, `MATERIALS`,
`PROPERTY TYPE` in that fixed order, each omitted entirely when its
content is empty, each present section's header padded with spaces to the
global 18-character width before its first content line (`make_line`);
`TYPE/TIME` content after the first line becomes continuation lines,
indented to the 18-character column when non-empty and emitted as an
empty line otherwise; content of the other sections is appended verbatim
after the header, line breaks included. -/
theorem billing_structure_C4 (r : LocateReport) :
    r.format_billing_details = String.intercalate "\r" (specBillingLines r) ∧
    (∀ h c, c ≠ "" → make_line h c = paddedHeader h ++ c) ∧
    (∀ c, c ≠ "" → make_continuation_line c
      = String.mk (List.replicate HEADER_WIDTH ' ') ++ c) := by
  refine ⟨?_, ?_, ?_⟩
  · unfold LocateReport.format_billing_details specBillingLines billingSection
      billingTypeTimeBlock
    by_cases h2 : r.job.format_type_time = ""
    · by_cases h1 : r.job.format_time_on_site = "" <;>
      by_cases h3 : r.format_supplemental = "" <;>
      by_cases h4 : r.format_materials = "" <;>
      by_cases h5 : r.format_property_type = "" <;>
        simp [h1, h2, h3, h4, h5, List.append_assoc]
    · cases hsp : pySplitCR r.job.format_type_time with
      | nil =>
        by_cases h1 : r.job.format_time_on_site = "" <;>
        by_cases h3 : r.format_supplemental = "" <;>
        by_cases h4 : r.format_materials = "" <;>
        by_cases h5 : r.format_property_type = "" <;>
          simp [h1, h2, h3, h4, h5, hsp, List.append_assoc]
      | cons hline rest =>
        by_cases h1 : r.job.format_time_on_site = "" <;>
        by_cases h3 : r.format_supplemental = "" <;>
        by_cases h4 : r.format_materials = "" <;>
        by_cases h5 : r.format_property_type = "" <;>
          simp [h1, h2, h3, h4, h5, hsp, List.append_assoc]
  · intro h c hc
    rw [make_line, if_neg hc, paddedHeader]
  · intro c hc
    rw [make_continuation_line, if_neg hc]

set_option maxRecDepth 100000 in
/-- Witness for C4's corrected claim: the structure equation evaluated on
a concrete multi-day report, and the padding equations at concrete
arguments. -/
theorem billing_structure_C4_witness :
    reportMultiBilling.format_billing_details
        = String.intercalate "\r" (specBillingLines reportMultiBilling) ∧
    make_line "TIME ON SITE" "x" = paddedHeader "TIME ON SITE" ++ "x" ∧
    make_continuation_line "y" = String.mk (List.replicate HEADER_WIDTH ' ') ++ "y" :=
  ⟨(billing_structure_C4 reportMultiBilling).1,
   (billing_structure_C4 reportMultiBilling).2.1 "TIME ON SITE" "x" (by decide),
   (billing_structure_C4 reportMultiBilling).2.2 "y" (by decide)⟩

/-! ## Lemmas for the digit rule of `format_time_12hr` -/

/-- Characters at or above `'!'` are not Python whitespace. -/
theorem isPySpace_false_of_ge (c : Char) (h : 33 ≤ c.toNat) : isPySpace c = false := by
  have h1 : c ≠ ' ' := by rintro rfl; exact absurd h (by decide)
  have h2 : c ≠ '\t' := by rintro rfl; exact absurd h (by decide)
  have h3 : c ≠ '\n' := by rintro rfl; exact absurd h (by decide)
  have h4 : c ≠ '\r' := by rintro rfl; exact absurd h (by decide)
  have h5 : c ≠ '\x0b' := by rintro rfl; exact absurd h (by decide)
  have h6 : c ≠ '\x0c' := by rintro rfl; exact absurd h (by decide)
  simp [isPySpace, beq_eq_false_iff_ne, h1, h2, h3, h4, h5, h6]

/-- `lower` fixes characters below `'A'`. -/
theorem lowerChar_id (c : Char) (h : c.toNat < 65) : lowerChar c = c := by
  unfold lowerChar
  rw [if_neg (by omega)]

/-- A map that fixes every member fixes the list. -/
theorem map_id_of_mem {f : Char → Char} :
    ∀ l : List Char, (∀ c ∈ l, f c = c) → l.map f = l := by
  intro l h
  induction l with
  | nil => rfl
  | cons a t ih =>
    rw [List.map_cons, h a (by simp), ih (fun c hc => h c (by simp [hc]))]

/-- `strip` fixes strings with no whitespace. -/
theorem pyStrip_id (s : String) (h : ∀ c ∈ s.toList, isPySpace c = false) :
    pyStrip s = s := by
  unfold pyStrip
  rw [dropWhile_all_false _ (fun x hx => h x hx),
    dropWhile_all_false _ (fun x hx => h x (List.mem_reverse.mp hx)),
    List.reverse_reverse]
  rfl

/-- `lower` fixes strings with no character at or above `'A'`. -/
theorem pyLower_id (s : String) (h : ∀ c ∈ s.toList, c.toNat < 65) :
    pyLower s = s := by
  unfold pyLower
  rw [map_id_of_mem _ (fun c hc => lowerChar_id c (h c hc))]
  rfl

/-- A needle starting with a character absent from the haystack is not a
substring. -/
theorem subMatch_none (c0 : Char) (n : List Char) :
    ∀ l : List Char, (∀ c ∈ l, c ≠ c0) → subMatch (c0 :: n) l = false := by
  intro l
  induction l with
  | nil => intro _; rfl
  | cons b bs ih =>
    intro h
    have hb : (c0 == b) = false :=
      beq_eq_false_iff_ne.mpr (Ne.symm (h b (by simp)))
    simp [subMatch, leadMatch, hb, ih (fun c hc => h c (by simp [hc]))]

/-- `int` accepts a pure digit string and yields its value. -/
theorem pyInt_digits (l : List Char) (hne : l ≠ [])
    (hall : ∀ c ∈ l, isDigitB c = true) :
    pyInt (String.mk l) = some ((natOfDigits l : Int)) := by
  have hstrip : pyStrip (String.mk l) = String.mk l :=
    pyStrip_id _ (fun c hc => isPySpace_false_of_ge c
      (by have := hall c hc; simp [isDigitB] at this; omega))
  unfold pyInt
  rw [hstrip]
  cases l with
  | nil => exact absurd rfl hne
  | cons c cs =>
    have hc := hall c (by simp)
    have hcm : c ≠ '-' := by rintro rfl; exact absurd hc (by decide)
    have hcp : c ≠ '+' := by rintro rfl; exact absurd hc (by decide)
    rw [if_neg (by simp [hcm]), if_neg (by simp [hcp])]
    unfold digitsOpt
    rw [if_pos ⟨by simp, List.all_eq_true.mpr hall⟩]
    rfl

/-- `renderHM` at natural hour and minute agrees with the claim's
rendering branches. -/
theorem renderHM_ofNat (h m : Nat) :
    renderHM (↑h) (↑m)
      = (if h = 0 ∨ h = 24 then "12:" ++ pad2Nat m ++ " am"
        else if h < 12 then natToStr h ++ ":" ++ pad2Nat m ++ " am"
        else if h = 12 then "12:" ++ pad2Nat m ++ " pm"
        else natToStr (h - 12) ++ ":" ++ pad2Nat m ++ " pm") := by
  have hpad : pyPad2 (↑m) = pad2Nat m := by
    unfold pyPad2
    rw [if_neg (by omega)]
    simp
  have hrep : ∀ n : Nat, intRepr (↑n) = natToStr n := by
    intro n
    unfold intRepr
    rw [if_neg (by omega)]
    simp
  unfold renderHM
  rw [hpad]
  by_cases h1 : h = 0 ∨ h = 24
  · rw [if_pos (by omega), if_pos h1]
  · rw [if_neg (by omega), if_neg h1]
    by_cases h2 : h < 12
    · rw [if_pos (by omega : ((h : Int)) < 12), if_pos h2, hrep]
    · rw [if_neg (by omega), if_neg h2]
      by_cases h3 : h = 12
      · rw [if_pos (by omega), if_pos h3]
      · rw [if_neg (by omega), if_neg h3,
          show (h : Int) - 12 = ((h - 12 : Nat) : Int) by omega, hrep]

/-- The string branch of `format_time_12hr` follows the claimed digit
rule on every colon-and-digit string containing at least one digit. -/
theorem digit_rule_string (s : String) (h0 : s ≠ "")
    (hall : ∀ c ∈ s.toList, isDigitB c = true ∨ c = ':')
    (hdig : ∃ c ∈ s.toList, isDigitB c = true) :
    format_time_12hr (some (TimeVal.s s)) = digitRuleSpec s := by
  have hbound : ∀ c ∈ s.toList, 48 ≤ c.toNat ∧ c.toNat ≤ 58 := by
    intro c hc
    rcases hall c hc with h | h
    · simp [isDigitB] at h
      omega
    · subst h
      exact ⟨by decide, by decide⟩
  have hstrip : pyStrip s = s :=
    pyStrip_id s (fun c hc => isPySpace_false_of_ge c (by have := hbound c hc; omega))
  have hlower : pyLower s = s :=
    pyLower_id s (fun c hc => by have := hbound c hc; omega)
  have ham : hasSub "am" s = false := by
    unfold hasSub
    rw [show ("am".toList) = 'a' :: ['m'] from rfl]
    exact subMatch_none 'a' ['m'] s.toList (fun c hc => by
      have := hbound c hc
      rintro rfl
      exact absurd this (by decide))
  have hpm : hasSub "pm" s = false := by
    unfold hasSub
    rw [show ("pm".toList) = 'p' :: ['m'] from rfl]
    exact subMatch_none 'p' ['m'] s.toList (fun c hc => by
      have := hbound c hc
      rintro rfl
      exact absurd this (by decide))
  set ds := s.toList.filter (fun c => c != ':') with hds
  have hds_sub : ∀ c ∈ ds, c ∈ s.toList := fun c hc => (List.mem_filter.mp hc).1
  have hds_all : ∀ c ∈ ds, isDigitB c = true := by
    intro c hc
    have h1 := List.mem_filter.mp hc
    rcases hall c h1.1 with h | h
    · exact h
    · exfalso
      rw [h] at h1
      simpa using h1.2
  have hds_ne : ds ≠ [] := by
    obtain ⟨c, hc, hcd⟩ := hdig
    have hcne : (c != ':') = true := by
      simp only [bne_iff_ne, ne_eq]
      rintro rfl
      exact absurd hcd (by decide)
    intro hnil
    have hmem : c ∈ ds := List.mem_filter.mpr ⟨hc, hcne⟩
    rw [hnil] at hmem
    simp at hmem
  have hstrip2 : pyStrip (String.mk ds) = String.mk ds :=
    pyStrip_id _ (fun c hc => isPySpace_false_of_ge c (by
      have := hbound c (hds_sub c hc); omega))
  simp only [format_time_12hr]
  rw [if_neg h0, hstrip, hlower, ham, hpm]
  simp only [Bool.or_self, Bool.false_eq_true, if_false]
  simp only [parseDigitRule]
  rw [hstrip2]
  rw [show (String.mk ds).length = ds.length from rfl,
    show (String.mk ds).toList = ds from rfl]
  unfold digitRuleSpec
  rw [← hds]
  dsimp only
  by_cases hlen : ds.length ≤ 2
  · rw [if_pos hlen, pyInt_digits ds hds_ne hds_all, if_pos hlen]
    exact (renderHM_ofNat (natOfDigits ds) 0)
  · have ht1_all : ∀ c ∈ ds.take (ds.length - 2), isDigitB c = true :=
      fun c hc => hds_all c (List.take_subset _ _ hc)
    have ht2_all : ∀ c ∈ ds.drop (ds.length - 2), isDigitB c = true :=
      fun c hc => hds_all c (List.drop_subset _ _ hc)
    have ht1_ne : ds.take (ds.length - 2) ≠ [] := by
      have hl : (ds.take (ds.length - 2)).length = ds.length - 2 := by
        rw [List.length_take]
        omega
      intro hnil
      rw [hnil] at hl
      simp at hl
      omega
    have ht2_ne : ds.drop (ds.length - 2) ≠ [] := by
      have hl : (ds.drop (ds.length - 2)).length = 2 := by
        rw [List.length_drop]
        omega
      intro hnil
      rw [hnil] at hl
      simp at hl
    rw [if_neg hlen, pyInt_digits _ ht1_ne ht1_all, pyInt_digits _ ht2_ne ht2_all,
      if_neg hlen]
    exact (renderHM_ofNat (natOfDigits (ds.take (ds.length - 2)))
      (natOfDigits (ds.drop (ds.length - 2))))

/-- Claim C6: on digit strings (optionally containing `':'`),
`format_time_12hr` strips the colon, reads at most 2 digits as the hour
with zero minutes and otherwise the last two digits as minutes with the
rest as the hour, and renders hour `0`/`24` as `12:MM am`, hours below 12
as `am`, hour `12` as `12:MM pm` and hours above 12 as `(H-12):MM pm`;
in particular `"0900" → "9:00 am"`, `"1430" → "2:30 pm"`,
`"1200" → "12:00 pm"`, `"0" → "12:00 am"`, and empty or absent input
yields `""`. -/
theorem format_time_digit_rule_C6 :
    (∀ s : String, s ≠ "" →
      (∀ c ∈ s.toList, isDigitB c = true ∨ c = ':') →
      (∃ c ∈ s.toList, isDigitB c = true) →
      format_time_12hr (some (TimeVal.s s)) = digitRuleSpec s) ∧
    format_time_12hr (some (TimeVal.s "0900")) = "9:00 am" ∧
    format_time_12hr (some (TimeVal.s "1430")) = "2:30 pm" ∧
    format_time_12hr (some (TimeVal.s "1200")) = "12:00 pm" ∧
    format_time_12hr (some (TimeVal.s "0")) = "12:00 am" ∧
    format_time_12hr (some (TimeVal.s "")) = "" ∧
    format_time_12hr none = "" :=
  ⟨digit_rule_string, by decide, by decide, by decide, by decide, rfl, rfl⟩

/-- Witness for C6's universal part at the input `"09:30"`. -/
theorem format_time_digit_rule_C6_witness :
    format_time_12hr (some (TimeVal.s "09:30")) = "9:30 am" :=
  ((format_time_digit_rule_C6).1 "09:30" (by decide) (by decide) (by decide)).trans
    (by decide)
